import Mathlib

set_option maxHeartbeats 1000000

/-!
Shallow embedding of the persistence layer in `src/database.py` (class `Database`).

Modelling conventions:
* Monetary values are `ℚ`, holding exactly the `Decimal` values the Python
  code computes and binds (`str(...)` on every write).  The monetary columns
  themselves — `users.balance`, the three `balance_history` amounts and
  `transactions.amount` — are declared REAL, so SQLite persists the binary64
  nearest to each bound value rather than the bound decimal itself.  That
  storage coercion is modelled by the `SqliteColType` constants together with
  `RepresentableAsReal`: theorems over the `ℚ` fields describe the values the
  code computes and binds, and the precision-loss theorems prove at which
  inputs the REAL columns cannot retain those values.
* Each table is a list of row structures; autoincrement ids and wall-clock
  timestamp columns written with `CURRENT_TIMESTAMP` (`created_at` of history and
  log rows, `updated_at` of users) are outside the model — no claim depends on
  them.  Timestamp columns that operations only read (`joined_date`,
  `last_activity`, `created_at` of users) are kept as ISO strings.
* Exceptions are modelled by an `Exn` oracle saying whether the underlying store
  raises while acquiring the connection or while executing the body; every
  operation catches at its boundary exactly as the Python `try/except` does and
  returns a value, never propagating.
* `OpResult.connsLeft` counts the connections opened by the call that are still
  open when it returns: `0` when the function's `finally` block closes the
  connection (or none was opened), `1` when the function has no `finally`.
* `OpResult.errorLogged` records whether the `except` branch ran `logger.error`.
-/

/-- users.status CHECK (status IN ('active', 'banned', 'suspended')). -/
inductive UserStatus
  | active
  | banned
  | suspended
deriving DecidableEq, BEq

/-- transactions.type CHECK (type IN ('deposit', 'withdrawal')). -/
inductive TxType
  | deposit
  | withdrawal
deriving DecidableEq, BEq

/-- Shared lifecycle status of transactions and orders:
CHECK (status IN ('pending', 'completed', 'rejected', 'expired')). -/
inductive TxStatus
  | pending
  | completed
  | rejected
  | expired
deriving DecidableEq, BEq

/-- orders.product_type CHECK (product_type IN ('game', 'app')). -/
inductive ProductType
  | game
  | app
deriving DecidableEq, BEq

/-- A row of the `users` table. -/
structure UserRow where
  user_id : Int
  username : Option String
  first_name : Option String
  balance : ℚ
  joined_date : String
  last_activity : String
  status : UserStatus
  account_data : Option String
  created_at : String
deriving DecidableEq

/-- A row of the `balance_history` table (autoincrement key and timestamp omitted). -/
structure BalanceHistoryRow where
  user_id : Int
  old_balance : ℚ
  new_balance : ℚ
  change_amount : ℚ
  transaction_type : String
  admin_id : Option Int
deriving DecidableEq

/-- A row of the `transactions` table (timestamps omitted). -/
structure TransactionRow where
  tx_id : String
  user_id : Int
  amount : ℚ
  type : TxType
  payment_method : String
  payment_details : String
  payment_subtype : Option String
  payment_number : Option String
  original_amount : ℚ
  original_currency : String
  exchange_rate : ℚ
  status : TxStatus
  reject_reason : Option String
  admin_id : Option Int
deriving DecidableEq

/-- A row of the `orders` table (autoincrement key and timestamps omitted). -/
structure OrderRow where
  user_id : Int
  product_type : ProductType
  product_id : String
  amount : String
  price : ℚ
  status : TxStatus
deriving DecidableEq

/-- A row of the `admin_logs` table (autoincrement key and timestamp omitted). -/
structure AdminLogRow where
  admin_id : Int
  action : String
  details : String
  target_user_id : Option Int
deriving DecidableEq

/-- The whole persisted store: the five tables of the schema. -/
structure DBState where
  users : List UserRow
  balance_history : List BalanceHistoryRow
  orders : List OrderRow
  transactions : List TransactionRow
  admin_logs : List AdminLogRow
deriving DecidableEq

/-- The store as created by a fresh schema initialization: all tables empty. -/
def emptyDB : DBState := ⟨[], [], [], [], []⟩

/-- Exception oracle for one operation: no exception, `get_connection` raising
(after its 5 bounded retries), or a statement of the `try` body raising. -/
inductive Exn
  | ok
  | acquireFail
  | bodyFail
deriving DecidableEq

/-- Result of one operation: the store afterwards, the Python return value, the
number of connections the call opened and left open, and whether the `except`
branch logged an error. -/
structure OpResult (α : Type) where
  db : DBState
  ret : α
  connsLeft : Nat
  errorLogged : Bool
deriving DecidableEq

/-- UPDATE users SET balance = ? WHERE user_id = ? — every matching row receives
the new balance. -/
def updateBalance (uid : Int) (newBal : ℚ) : List UserRow → List UserRow
  | [] => []
  | u :: rest =>
      (if u.user_id == uid then { u with balance := newBal } else u) ::
        updateBalance uid newBal rest

/-- UPDATE users SET status = ? WHERE user_id = ? — every matching row receives
the new status. -/
def updateStatus (uid : Int) (st : UserStatus) : List UserRow → List UserRow
  | [] => []
  | u :: rest =>
      (if u.user_id == uid then { u with status := st } else u) ::
        updateStatus uid st rest

/-- SELECT ... FROM users WHERE user_id = ? (first row, as `fetchone`). -/
def findUser (db : DBState) (uid : Int) : Option UserRow :=
  db.users.find? (fun u => u.user_id == uid)

/-- Current balance of an account as the store reports it (0 if absent). -/
def balanceOf (db : DBState) (uid : Int) : ℚ :=
  match findUser db uid with
  | some u => u.balance
  | none => 0

/-- Number of balance_history rows belonging to one account. -/
def historyCount (db : DBState) (uid : Int) : Nat :=
  (db.balance_history.filter (fun h => h.user_id == uid)).length

/-- `Database.modify_user_balance(user_id, amount, admin_id)`:
BEGIN; SELECT balance; if absent → ROLLBACK, False; compute
`new_balance = current + amount`; if `new_balance < 0` → ROLLBACK, False;
UPDATE balance; INSERT one balance_history row
(`'credit' if amount > 0 else 'debit'`); INSERT one admin_logs row; COMMIT,
True.  On exception: ROLLBACK, log, False.  `finally` closes the connection.
The `ℚ` balance and history fields hold the exact Decimal values the code
binds; the REAL columns persist their binary64 coercion instead — see
`users_balance_coltype`, `balance_history_amount_coltype` and the
precision-loss theorems. -/
def modify_user_balance (db : DBState) (user_id : Int) (amount : ℚ)
    (admin_id : Int) (exn : Exn) : OpResult Bool :=
  match exn with
  | .acquireFail => ⟨db, false, 0, true⟩
  | .bodyFail => ⟨db, false, 0, true⟩
  | .ok =>
    match findUser db user_id with
    | none => ⟨db, false, 0, false⟩
    | some u =>
      let current_balance := u.balance
      let new_balance := current_balance + amount
      if new_balance < 0 then
        ⟨db, false, 0, false⟩
      else
        ⟨{ db with
            users := updateBalance user_id new_balance db.users,
            balance_history := db.balance_history ++
              [⟨user_id, current_balance, new_balance, amount,
                if amount > 0 then "credit" else "debit", some admin_id⟩],
            admin_logs := db.admin_logs ++
              [⟨admin_id, "modify_balance",
                "Modified balance by " ++ toString amount, some user_id⟩] },
          true, 0, false⟩

/-- `Database.ban_user(user_id, admin_id)`:
BEGIN; UPDATE users SET status = 'banned' WHERE user_id = ? (no condition on the
current status); if rowcount > 0 → INSERT one admin_logs row, COMMIT, True;
else ROLLBACK, False.  On exception: ROLLBACK, log, False.  `finally` closes. -/
def ban_user (db : DBState) (user_id : Int) (admin_id : Int) (exn : Exn) :
    OpResult Bool :=
  match exn with
  | .acquireFail => ⟨db, false, 0, true⟩
  | .bodyFail => ⟨db, false, 0, true⟩
  | .ok =>
    if db.users.any (fun u => u.user_id == user_id) then
      ⟨{ db with
          users := updateStatus user_id .banned db.users,
          admin_logs := db.admin_logs ++
            [⟨admin_id, "ban_user",
              "User " ++ toString user_id ++ " was banned", some user_id⟩] },
        true, 0, false⟩
    else
      ⟨db, false, 0, false⟩

/-- `Database.unban_user(user_id, admin_id)`: as `ban_user` with status 'active'. -/
def unban_user (db : DBState) (user_id : Int) (admin_id : Int) (exn : Exn) :
    OpResult Bool :=
  match exn with
  | .acquireFail => ⟨db, false, 0, true⟩
  | .bodyFail => ⟨db, false, 0, true⟩
  | .ok =>
    if db.users.any (fun u => u.user_id == user_id) then
      ⟨{ db with
          users := updateStatus user_id .active db.users,
          admin_logs := db.admin_logs ++
            [⟨admin_id, "unban_user",
              "User " ++ toString user_id ++ " was unbanned", some user_id⟩] },
        true, 0, false⟩
    else
      ⟨db, false, 0, false⟩

/-- `Database.create_transaction(tx_id, user_id, amount, payment_method,
payment_subtype, payment_number, **kwargs)`:
BEGIN; INSERT one transactions row with type 'deposit', status 'pending' and the
kwargs defaults (`payment_details` → `{}` serialized, `original_amount` →
`amount`, `original_currency` → 'SYP', `exchange_rate` → 1); COMMIT, True.
A primary-key collision on tx_id makes the INSERT raise, landing in the
`except` branch: ROLLBACK, log, False.  `finally` closes the connection. -/
def create_transaction (db : DBState) (tx_id : String) (user_id : Int)
    (amount : ℚ) (payment_method : String)
    (payment_subtype : Option String) (payment_number : Option String)
    (payment_details : Option String) (original_amount : Option ℚ)
    (original_currency : Option String) (exchange_rate : Option ℚ)
    (exn : Exn) : OpResult Bool :=
  match exn with
  | .acquireFail => ⟨db, false, 0, true⟩
  | .bodyFail => ⟨db, false, 0, true⟩
  | .ok =>
    if db.transactions.any (fun t => t.tx_id == tx_id) then
      ⟨db, false, 0, true⟩
    else
      ⟨{ db with
          transactions := db.transactions ++
            [⟨tx_id, user_id, amount, .deposit, payment_method,
              payment_details.getD "\x7b\x7d", payment_subtype, payment_number,
              original_amount.getD amount, original_currency.getD "SYP",
              exchange_rate.getD 1, .pending, none, none⟩] },
        true, 0, false⟩

/-- `username.lstrip('@')`: remove every leading '@' character. -/
def lstripAt (s : String) : String :=
  ⟨s.data.dropWhile (fun c => c == '@')⟩

/-- `Database.get_user_id_by_username(username)`: strip leading '@', then
SELECT user_id FROM users WHERE username = ? — an exact, case-sensitive match.
On exception: log, None.  `finally` closes the connection. -/
def get_user_id_by_username (db : DBState) (username : String) (exn : Exn) :
    OpResult (Option Int) :=
  match exn with
  | .acquireFail => ⟨db, none, 0, true⟩
  | .bodyFail => ⟨db, none, 0, true⟩
  | .ok =>
    match db.users.find? (fun u => u.username == some (lstripAt username)) with
    | some u => ⟨db, some u.user_id, 0, false⟩
    | none => ⟨db, none, 0, false⟩

/-- COUNT(*) of a user's transactions rows. -/
def txCountFor (db : DBState) (uid : Int) : Nat :=
  (db.transactions.filter (fun t => t.user_id == uid)).length

/-- SUM of completed deposit amounts of one user (COALESCE(...,0)). -/
def depositsFor (db : DBState) (uid : Int) : ℚ :=
  ((db.transactions.filter (fun t =>
      t.user_id == uid && t.type == TxType.deposit
        && t.status == TxStatus.completed)).map TransactionRow.amount).sum

/-- SUM of completed withdrawal amounts of one user (COALESCE(...,0)). -/
def withdrawalsFor (db : DBState) (uid : Int) : ℚ :=
  ((db.transactions.filter (fun t =>
      t.user_id == uid && t.type == TxType.withdrawal
        && t.status == TxStatus.completed)).map TransactionRow.amount).sum

/-- COUNT(*) of a user's orders rows. -/
def orderCountFor (db : DBState) (uid : Int) : Nat :=
  (db.orders.filter (fun o => o.user_id == uid)).length

/-- SUM of completed order prices of one user (COALESCE(...,0)). -/
def spentFor (db : DBState) (uid : Int) : ℚ :=
  ((db.orders.filter (fun o =>
      o.user_id == uid && o.status == TxStatus.completed)).map
        OrderRow.price).sum

/-- The dictionary returned by `get_user_stats`. -/
structure UserStats where
  user_id : Int
  username : Option String
  first_name : Option String
  current_balance : ℚ
  join_date : String
  last_active : String
  is_banned : Bool
  created_at : String
  total_transactions : Nat
  total_deposits : ℚ
  total_withdrawals : ℚ
  total_orders : Nat
  total_spent : ℚ
deriving DecidableEq

/-- `Database.get_user_stats(user_id)`: read user row (None if absent), the
transaction aggregates and the order aggregates; on any exception log and
return None.  `finally` closes the connection. -/
def get_user_stats (db : DBState) (user_id : Int) (exn : Exn) :
    OpResult (Option UserStats) :=
  match exn with
  | .acquireFail => ⟨db, none, 0, true⟩
  | .bodyFail => ⟨db, none, 0, true⟩
  | .ok =>
    match findUser db user_id with
    | none => ⟨db, none, 0, false⟩
    | some u =>
      ⟨db,
        some
          { user_id := user_id
            username := u.username
            first_name := u.first_name
            current_balance := u.balance
            join_date := u.joined_date
            last_active := u.last_activity
            is_banned := u.status == UserStatus.banned
            created_at := u.created_at
            total_transactions := txCountFor db user_id
            total_deposits := depositsFor db user_id
            total_withdrawals := withdrawalsFor db user_id
            total_orders := orderCountFor db user_id
            total_spent := spentFor db user_id },
        0, false⟩

/-- `Database.get_total_users()`: SELECT COUNT(*) FROM users; on exception log
and return 0.  `finally` closes the connection. -/
def get_total_users (db : DBState) (exn : Exn) : OpResult Nat :=
  match exn with
  | .acquireFail => ⟨db, 0, 0, true⟩
  | .bodyFail => ⟨db, 0, 0, true⟩
  | .ok => ⟨db, db.users.length, 0, false⟩

/-- `Database.get_active_users_last_24h()`: count users whose `last_activity`
is later than the cutoff `datetime('now','-1 day')` (ISO strings compare
lexicographically) and whose status is 'active'; on exception log and return 0.
`finally` closes the connection. -/
def get_active_users_last_24h (db : DBState) (cutoff : String) (exn : Exn) :
    OpResult Nat :=
  match exn with
  | .acquireFail => ⟨db, 0, 0, true⟩
  | .bodyFail => ⟨db, 0, 0, true⟩
  | .ok =>
    ⟨db,
      (db.users.filter (fun u =>
        decide (cutoff < u.last_activity) && u.status == UserStatus.active)).length,
      0, false⟩

/-- `Database.get_total_transaction_volume()`: SELECT COALESCE(SUM(amount),0)
FROM transactions WHERE status = 'completed'; on exception log and return
Decimal('0').  This method has NO `finally` clause, so a connection it opened
is never closed (hence `connsLeft = 1` whenever the connection was acquired). -/
def get_total_transaction_volume (db : DBState) (exn : Exn) : OpResult ℚ :=
  match exn with
  | .acquireFail => ⟨db, 0, 0, true⟩
  | .bodyFail => ⟨db, 0, 1, true⟩
  | .ok =>
    ⟨db,
      ((db.transactions.filter (fun t => t.status == TxStatus.completed)).map
        TransactionRow.amount).sum,
      1, false⟩

/-- One logical `modify_user_balance` request of a call sequence. -/
structure BalanceCall where
  user_id : Int
  amount : ℚ
  admin_id : Int
  exn : Exn

/-- Run a sequence of `modify_user_balance` calls, collecting the returns. -/
def applyCalls (db : DBState) : List BalanceCall → DBState × List Bool
  | [] => (db, [])
  | c :: rest =>
    let r := modify_user_balance db c.user_id c.amount c.admin_id c.exn
    let p := applyCalls r.db rest
    (p.1, r.ret :: p.2)

/-- Sum of the signed amounts of the applied (True-returning) calls on one
account, given the calls paired with their returns. -/
def appliedSum (uid : Int) : List (BalanceCall × Bool) → ℚ
  | [] => 0
  | (c, b) :: rest =>
      (if b && c.user_id == uid then c.amount else 0) + appliedSum uid rest

/-- Number of applied (True-returning) calls on one account. -/
def appliedCount (uid : Int) : List (BalanceCall × Bool) → Nat
  | [] => 0
  | (c, b) :: rest =>
      (if b && c.user_id == uid then 1 else 0) + appliedCount uid rest

/-- Declared SQLite column types. -/
inductive SqliteColType
  | integer
  | real
  | text
  | blob
deriving DecidableEq

/-- Declared type of `transactions.amount` in the schema: `amount REAL NOT NULL`
(src/database.py line 147).  REAL column affinity makes SQLite convert any
numeric value bound to this column — including the text `str(amount)` that
`create_transaction` binds — to an 8-byte IEEE-754 binary64 float before
storing it. -/
def transactions_amount_coltype : SqliteColType := .real

/-- The rationals an IEEE-754 binary64 value (a SQLite REAL) can hold exactly:
a 53-bit significand times a power of two, i.e. `m * 2^e` or `m / 2^e` with
`|m| < 2^53`. -/
def RepresentableAsReal (q : ℚ) : Prop :=
  ∃ (m : Int) (e : Nat), m.natAbs < 2 ^ 53 ∧
    (q = (m : ℚ) * (2 : ℚ) ^ e ∨ q * (2 : ℚ) ^ e = (m : ℚ))

/-- Declared type of `users.balance` in the schema: `balance REAL DEFAULT 0.0
CHECK (balance >= 0)` (src/database.py line 107).  REAL affinity makes SQLite
persist the binary64 nearest to the decimal text `str(new_balance)` that
`modify_user_balance` binds, not the bound decimal itself. -/
def users_balance_coltype : SqliteColType := .real

/-- Declared type of the monetary columns of `balance_history`:
`old_balance REAL`, `new_balance REAL`, `change_amount REAL`
(src/database.py lines 120-122). -/
def balance_history_amount_coltype : SqliteColType := .real

/-! ### Facts about binary64 representability -/

/-- A fraction `N / 10^k` (k ≥ 1) whose numerator is divisible by neither 2
nor 5 is in lowest terms with the factor 5 in its denominator, so no binary64
value (`m * 2^e` or `m / 2^e`) can equal it. -/
theorem not_representableAsReal_tenpow (N : Int) (k : Nat)
    (hN2 : ¬(2 : Int) ∣ N) (hN5 : ¬(5 : Int) ∣ N) (hk : k ≠ 0) :
    ¬RepresentableAsReal ((N : ℚ) / 10 ^ k) := by
  rintro ⟨m, e, -, h | h⟩
  · have h' : (N : ℚ) = (m : ℚ) * 2 ^ e * 10 ^ k := by
      rw [div_eq_iff (by positivity : ((10 : ℚ)) ^ k ≠ 0)] at h
      linarith
    have hz : (N : Int) = m * 2 ^ e * 10 ^ k := by exact_mod_cast h'
    have h2 : (2 : Int) ∣ N := by
      rw [hz]
      exact (dvd_pow (by norm_num) hk).mul_left (m * 2 ^ e)
    exact hN2 h2
  · have h' : (N : ℚ) * 2 ^ e = (m : ℚ) * 10 ^ k := by
      rw [div_mul_eq_mul_div,
        div_eq_iff (by positivity : ((10 : ℚ)) ^ k ≠ 0)] at h
      linarith
    have hz : (N : Int) * 2 ^ e = m * 10 ^ k := by exact_mod_cast h'
    have h5 : (5 : Int) ∣ N * 2 ^ e := by
      rw [hz]
      exact (dvd_pow (by norm_num) hk).mul_left m
    have hp : Prime (5 : Int) := by norm_num
    rcases hp.dvd_mul.mp h5 with h'' | h''
    · exact hN5 h''
    · have h2 := hp.dvd_of_dvd_pow h''
      norm_num at h2

/-! ### C1 / C2: modify_user_balance rejection and application -/

/-- A concrete account used by witnesses: id 1, balance 5. -/
def userW : UserRow :=
  ⟨1, some "bob", some "Bob", 5, "2024-01-01T00:00:00", "2024-01-02T00:00:00",
    .active, none, "2024-01-01T00:00:00"⟩

/-- A concrete store holding only `userW`. -/
def dbW : DBState := ⟨[userW], [], [], [], []⟩

/-- C1: whenever the account's current balance plus the signed amount is
negative, `modify_user_balance` returns False and the store is completely
unchanged — same balance, no balance_history row, no admin_logs row (the
transaction was rolled back).  This holds on the normal path and on every
exception path alike. -/
theorem modify_user_balance_rejects_negative (db : DBState) (uid : Int)
    (amt : ℚ) (adm : Int) (exn : Exn) (u : UserRow)
    (hu : findUser db uid = some u) (hneg : u.balance + amt < 0) :
    (modify_user_balance db uid amt adm exn).ret = false ∧
      (modify_user_balance db uid amt adm exn).db = db := by
  cases exn <;> simp [modify_user_balance, hu, hneg]

/-- Witness for C1 at a concrete input: balance 5, amount −10. -/
theorem modify_user_balance_rejects_negative_witness :
    (modify_user_balance dbW 1 (-10) 9 Exn.ok).ret = false ∧
      (modify_user_balance dbW 1 (-10) 9 Exn.ok).db = dbW :=
  modify_user_balance_rejects_negative dbW 1 (-10) 9 Exn.ok userW (by rfl)
    (by norm_num [userW])

/-! ### C2 / C3: REAL-column precision loss in the balance ledger -/

/-- A concrete account with balance 0 for the precision-loss theorems. -/
def userZeroW : UserRow :=
  ⟨1, some "zed", none, 0, "2024-01-01T00:00:00", "2024-01-02T00:00:00",
    .active, none, "2024-01-01T00:00:00"⟩

/-- A concrete store holding only `userZeroW`. -/
def dbZeroW : DBState := ⟨[userZeroW], [], [], [], []⟩

/-- C2 (code bug): `modify_user_balance` computes `new_balance = old + amount`
exactly as a `Decimal` and binds `str(new_balance)` (and `str` of the old
balance and change) to `users.balance` and the `balance_history` columns — but
those columns are declared REAL, so SQLite persists the nearest binary64
instead of the bound decimal.  At balance 0 and amount
0.1234567890123456789 the call succeeds and binds exactly
`old + amount = 1234567890123456789/10^19`, yet that value is representable by
no binary64 (SQLite actually retains ≈ 0.12345678901234568), so the persisted
balance and history values cannot equal `old + amount` as the claim states.
The theorem evaluates the operation at this input: the bound values are
exactly `old + amount`, the columns are REAL, and no binary64 equals the bound
value. -/
theorem modify_user_balance_precision_loss :
    users_balance_coltype = SqliteColType.real ∧
      balance_history_amount_coltype = SqliteColType.real ∧
      (modify_user_balance dbZeroW 1 ((1234567890123456789 : ℚ) / 10 ^ 19) 9
          Exn.ok).ret = true ∧
      balanceOf (modify_user_balance dbZeroW 1
          ((1234567890123456789 : ℚ) / 10 ^ 19) 9 Exn.ok).db 1 =
        userZeroW.balance + (1234567890123456789 : ℚ) / 10 ^ 19 ∧
      (modify_user_balance dbZeroW 1 ((1234567890123456789 : ℚ) / 10 ^ 19) 9
          Exn.ok).db.balance_history =
        [⟨1, 0, (1234567890123456789 : ℚ) / 10 ^ 19,
          (1234567890123456789 : ℚ) / 10 ^ 19, "credit", some 9⟩] ∧
      ¬RepresentableAsReal
        (userZeroW.balance + (1234567890123456789 : ℚ) / 10 ^ 19) := by
  refine ⟨rfl, rfl, ?_, ?_, ?_, ?_⟩
  · norm_num [modify_user_balance, findUser, dbZeroW, userZeroW, List.find?]
  · norm_num [modify_user_balance, findUser, balanceOf, updateBalance, dbZeroW,
      userZeroW, List.find?]
  · norm_num [modify_user_balance, findUser, dbZeroW, userZeroW, List.find?]
  · have h := not_representableAsReal_tenpow 1234567890123456789 19 (by omega)
      (by omega) (by decide)
    push_cast at h
    simpa [userZeroW] using h

/-- The concrete two-call sequence of the C3 failing input: +0.1 then
+0.1234567890123456789, both on account 1. -/
def callsW : List BalanceCall :=
  [⟨1, (1 : ℚ) / 10, 9, .ok⟩,
    ⟨1, (1234567890123456789 : ℚ) / 10 ^ 19, 9, .ok⟩]

/-- C3 (code bug): for the two-call sequence `callsW` from balance 0 both
calls are applied and exactly two balance_history rows result (the count half
of the claim is untouched by the storage coercion), and the claimed final
balance — initial balance plus the sum of the applied signed amounts — equals
`2234567890123456789/10^19`.  But `users.balance` is a REAL column, so the
persisted final balance is a binary64, and no binary64 equals that sum
(SQLite retains ≈ 0.22345678901234568): the program's stored final balance
cannot satisfy the claimed sum invariant. -/
theorem final_balance_sum_precision_loss :
    users_balance_coltype = SqliteColType.real ∧
      (applyCalls dbZeroW callsW).2 = [true, true] ∧
      historyCount (applyCalls dbZeroW callsW).1 1 = 2 ∧
      balanceOf dbZeroW 1 +
          appliedSum 1 (callsW.zip (applyCalls dbZeroW callsW).2) =
        (2234567890123456789 : ℚ) / 10 ^ 19 ∧
      ¬RepresentableAsReal ((2234567890123456789 : ℚ) / 10 ^ 19) := by
  refine ⟨rfl, ?_, ?_, ?_, ?_⟩
  · norm_num [applyCalls, modify_user_balance, findUser, updateBalance,
      dbZeroW, userZeroW, callsW, List.find?]
  · norm_num [applyCalls, modify_user_balance, findUser, updateBalance,
      historyCount, dbZeroW, userZeroW, callsW, List.find?]
  · norm_num [applyCalls, modify_user_balance, findUser, updateBalance,
      balanceOf, appliedSum, dbZeroW, userZeroW, callsW, List.find?, List.zip]
  · have h := not_representableAsReal_tenpow 2234567890123456789 19 (by omega)
      (by omega) (by decide)
    push_cast at h
    simpa using h

/-! ### C4 / C9: create_transaction -/

/-- C4: `create_transaction` with a tx_id already present in the transactions
table hits the primary-key collision, which surfaces as a failure: it returns
False and the store is unchanged.  With a fresh tx_id it inserts exactly one
transactions row with status 'pending' and returns True, leaving every other
table unchanged. -/
theorem create_transaction_duplicate_or_insert (db : DBState) (tx_id : String)
    (uid : Int) (amt : ℚ) (method : String) (psub pnum pdet : Option String)
    (oamt : Option ℚ) (ocur : Option String) (xr : Option ℚ) :
    ((db.transactions.any (fun t => t.tx_id == tx_id)) = true →
        create_transaction db tx_id uid amt method psub pnum pdet oamt ocur xr
            Exn.ok =
          ⟨db, false, 0, true⟩) ∧
      ((db.transactions.any (fun t => t.tx_id == tx_id)) = false →
        (create_transaction db tx_id uid amt method psub pnum pdet oamt ocur xr
              Exn.ok).ret = true ∧
          (create_transaction db tx_id uid amt method psub pnum pdet oamt ocur
                xr Exn.ok).db.transactions =
            db.transactions ++
              [⟨tx_id, uid, amt, .deposit, method, pdet.getD "\x7b\x7d", psub, pnum,
                oamt.getD amt, ocur.getD "SYP", xr.getD 1, .pending, none,
                none⟩] ∧
          (create_transaction db tx_id uid amt method psub pnum pdet oamt ocur
                xr Exn.ok).db.users = db.users ∧
          (create_transaction db tx_id uid amt method psub pnum pdet oamt ocur
                xr Exn.ok).db.balance_history = db.balance_history ∧
          (create_transaction db tx_id uid amt method psub pnum pdet oamt ocur
                xr Exn.ok).db.orders = db.orders ∧
          (create_transaction db tx_id uid amt method psub pnum pdet oamt ocur
                xr Exn.ok).db.admin_logs = db.admin_logs) := by
  constructor
  · intro h
    simp [create_transaction, h]
  · intro h
    simp [create_transaction, h]

/-- A concrete pending transaction used by witnesses. -/
def txW : TransactionRow :=
  ⟨"t1", 1, 10, .deposit, "syriatel", "\x7b\x7d", none, none, 10, "SYP", 1, .pending,
    none, none⟩

/-- A concrete store holding `userW` and the transaction `txW`. -/
def dbTxW : DBState := ⟨[userW], [], [], [txW], []⟩

/-- Witness for C4: re-using id "t1" fails and changes nothing; the fresh id
"t2" is accepted. -/
theorem create_transaction_duplicate_or_insert_witness :
    create_transaction dbTxW "t1" 1 5 "mtn" none none none none none none
          Exn.ok =
        ⟨dbTxW, false, 0, true⟩ ∧
      (create_transaction dbTxW "t2" 1 5 "mtn" none none none none none none
          Exn.ok).ret = true :=
  ⟨(create_transaction_duplicate_or_insert dbTxW "t1" 1 5 "mtn" none none none
      none none none).1 (by rfl),
    ((create_transaction_duplicate_or_insert dbTxW "t2" 1 5 "mtn" none none
        none none none none).2 (by rfl)).1⟩

/-- C9: every transactions row that `create_transaction` adds has type
'deposit' — the public interface hard-codes `'deposit'` in its INSERT, so it
can never produce a 'withdrawal' row even though the schema allows one. -/
theorem create_transaction_only_deposits (db : DBState) (tx_id : String)
    (uid : Int) (amt : ℚ) (method : String) (psub pnum pdet : Option String)
    (oamt : Option ℚ) (ocur : Option String) (xr : Option ℚ) (exn : Exn)
    (t : TransactionRow)
    (ht : t ∈ (create_transaction db tx_id uid amt method psub pnum pdet oamt
        ocur xr exn).db.transactions) :
    t ∈ db.transactions ∨ t.type = TxType.deposit := by
  cases exn with
  | acquireFail => exact Or.inl ht
  | bodyFail => exact Or.inl ht
  | ok =>
    by_cases hdup : (db.transactions.any (fun x => x.tx_id == tx_id)) = true
    · simp only [create_transaction, hdup, if_pos] at ht
      exact Or.inl ht
    · have hdup' : (db.transactions.any (fun x => x.tx_id == tx_id)) = false :=
        by simpa using hdup
      simp only [create_transaction, hdup', Bool.false_eq_true, if_false] at ht
      rcases List.mem_append.mp ht with h | h
      · exact Or.inl h
      · rcases List.mem_singleton.mp h with rfl
        exact Or.inr rfl

/-- The row the C9 witness expects `create_transaction` to produce. -/
def txNewW : TransactionRow :=
  ⟨"t9", 1, 5, .deposit, "mtn", "\x7b\x7d", none, none, 5, "SYP", 1, .pending, none,
    none⟩

/-- Witness for C9 on the empty store. -/
theorem create_transaction_only_deposits_witness :
    txNewW ∈ (create_transaction emptyDB "t9" 1 5 "mtn" none none none none
        none none Exn.ok).db.transactions ∧
      (txNewW ∈ emptyDB.transactions ∨ txNewW.type = TxType.deposit) :=
  ⟨by simp [create_transaction, emptyDB, txNewW],
    create_transaction_only_deposits emptyDB "t9" 1 5 "mtn" none none none
      none none none Exn.ok txNewW
      (by simp [create_transaction, emptyDB, txNewW])⟩

/-! ### C6: ban_user / unban_user gating -/

/-- A concrete account that is already banned. -/
def userBannedW : UserRow :=
  ⟨2, some "eve", none, 0, "2024-01-01T00:00:00", "2024-01-01T00:00:00",
    .banned, none, "2024-01-01T00:00:00"⟩

/-- A concrete store holding only the banned account `userBannedW`. -/
def dbBannedW : DBState := ⟨[userBannedW], [], [], [], []⟩

/-- C6 counterexample: the UPDATE of `ban_user` is not gated on the current
status differing from the target status.  Banning an account that is already
banned matches one row (`WHERE user_id = ?` only), so the call returns True
and still inserts an AdminLogEntry — the claim predicts a zero-rowcount
update returning False with no log row. -/
theorem ban_user_not_gated_on_status :
    (findUser dbBannedW 2).map UserRow.status = some UserStatus.banned ∧
      (ban_user dbBannedW 2 9 Exn.ok).ret = true ∧
      (ban_user dbBannedW 2 9 Exn.ok).db.admin_logs.length = 1 := by
  refine ⟨rfl, rfl, rfl⟩

/-- C6 amended: `ban_user` and `unban_user` gate their status update only on
the account existing (`WHERE user_id = ?`): a zero-rowcount update signals "no
such account" and yields False (not an error) with the store unchanged; when
the account exists — even when its status already equals the target — the call
returns True and inserts exactly one AdminLogEntry atomically with the status
change. -/
theorem ban_unban_gated_on_existence (db : DBState) (uid adm : Int) :
    ((db.users.any (fun u => u.user_id == uid)) = true →
        (ban_user db uid adm Exn.ok).ret = true ∧
          (ban_user db uid adm Exn.ok).db.users =
            updateStatus uid .banned db.users ∧
          (ban_user db uid adm Exn.ok).db.admin_logs =
            db.admin_logs ++
              [⟨adm, "ban_user", "User " ++ toString uid ++ " was banned",
                some uid⟩] ∧
          (ban_user db uid adm Exn.ok).db.balance_history =
            db.balance_history ∧
          (ban_user db uid adm Exn.ok).db.transactions = db.transactions ∧
          (ban_user db uid adm Exn.ok).db.orders = db.orders ∧
          (unban_user db uid adm Exn.ok).ret = true ∧
          (unban_user db uid adm Exn.ok).db.users =
            updateStatus uid .active db.users ∧
          (unban_user db uid adm Exn.ok).db.admin_logs =
            db.admin_logs ++
              [⟨adm, "unban_user", "User " ++ toString uid ++ " was unbanned",
                some uid⟩]) ∧
      ((db.users.any (fun u => u.user_id == uid)) = false →
        ban_user db uid adm Exn.ok = ⟨db, false, 0, false⟩ ∧
          unban_user db uid adm Exn.ok = ⟨db, false, 0, false⟩) := by
  constructor
  · intro h
    simp [ban_user, unban_user, h]
  · intro h
    simp [ban_user, unban_user, h]

/-- Witness for the amended C6: banning the existing account 1 succeeds;
unbanning the absent account 42 returns False and changes nothing. -/
theorem ban_unban_gated_on_existence_witness :
    (ban_user dbW 1 9 Exn.ok).ret = true ∧
      unban_user dbW 42 9 Exn.ok = ⟨dbW, false, 0, false⟩ :=
  ⟨((ban_unban_gated_on_existence dbW 1 9).1 (by rfl)).1,
    ((ban_unban_gated_on_existence dbW 42 9).2 (by rfl)).2⟩

/-! ### C7: connection release -/

/-- `modify_user_balance` leaves no connection open on any path: its `finally`
block closes the handle on success, rejection and exception alike. -/
theorem modify_user_balance_closes_connection (db : DBState) (uid : Int)
    (amt : ℚ) (adm : Int) (exn : Exn) :
    (modify_user_balance db uid amt adm exn).connsLeft = 0 := by
  cases exn with
  | acquireFail => rfl
  | bodyFail => rfl
  | ok =>
    simp only [modify_user_balance]
    cases findUser db uid with
    | none => rfl
    | some u => by_cases h : u.balance + amt < 0 <;> simp [h]

/-- C7: `get_total_transaction_volume` has no `finally` clause, so the
connection it opens is never closed: on every path where the connection was
acquired (the normal path and a body exception alike) exactly one connection
opened by the call remains open when it returns — refuting "no connection
opened by that operation remains open".  `modify_user_balance`, which does
have a `finally` block, is shown alongside for contrast. -/
theorem get_total_transaction_volume_leaks_connection (db : DBState)
    (uid : Int) (amt : ℚ) (adm : Int) (exn : Exn) :
    (modify_user_balance db uid amt adm exn).connsLeft = 0 ∧
      (get_total_transaction_volume db exn).connsLeft =
        (if exn = Exn.acquireFail then 0 else 1) := by
  refine ⟨modify_user_balance_closes_connection db uid amt adm exn, ?_⟩
  cases exn <;> rfl

/-! ### C8: username lookup normalization -/

/-- Stripping the leading '@' characters absorbs one more prepended '@'. -/
theorem lstripAt_at_prepend (s : String) : lstripAt ("@" ++ s) = lstripAt s :=
  rfl

/-- A concrete account whose username is stored with a capital letter. -/
def userAliceW : UserRow :=
  ⟨7, some "Alice", none, 0, "2024-01-01T00:00:00", "2024-01-01T00:00:00",
    .active, none, "2024-01-01T00:00:00"⟩

/-- A concrete store holding only `userAliceW`. -/
def dbAliceW : DBState := ⟨[userAliceW], [], [], [], []⟩

/-- C8 counterexample: the lookup is not case-normalized.  For the stored
username "Alice", querying "Alice" or "@Alice" finds the account, but the
differently-cased "ALICE" returns None — the claim predicts the same account
id for every letter-casing. -/
theorem get_user_id_by_username_case_sensitive :
    (get_user_id_by_username dbAliceW "Alice" Exn.ok).ret = some 7 ∧
      (get_user_id_by_username dbAliceW "@Alice" Exn.ok).ret = some 7 ∧
      (get_user_id_by_username dbAliceW "ALICE" Exn.ok).ret = none := by
  refine ⟨rfl, rfl, rfl⟩

/-- C8 amended: `get_user_id_by_username` normalizes only the '@' prefix, not
the letter case: it strips every leading '@' from the query and then matches
the stored username exactly and case-sensitively, so prepending '@' to any
query never changes the result. -/
theorem get_user_id_by_username_at_prefix_invariant (db : DBState) (q : String)
    (exn : Exn) :
    get_user_id_by_username db ("@" ++ q) exn =
      get_user_id_by_username db q exn := by
  cases exn <;> simp [get_user_id_by_username, lstripAt_at_prepend]

/-! ### C10: read-only queries fail closed with empty-store sentinels -/

/-- C10: when any exception occurs inside a read-only query operation, the
operation logs the error and returns a sentinel that is indistinguishable from
the result on a legitimately empty store: `get_user_stats` returns None,
`get_total_users` and `get_active_users_last_24h` return 0, and
`get_total_transaction_volume` returns Decimal('0').  No exception propagates:
each operation is a total function whose `except` branch converts the failure
into this return value. -/
theorem query_ops_fail_with_empty_sentinels (db : DBState) (uid : Int)
    (cutoff : String) (exn : Exn) (h : exn ≠ Exn.ok) :
    (get_user_stats db uid exn).ret = none ∧
      (get_user_stats db uid exn).errorLogged = true ∧
      (get_total_users db exn).ret = 0 ∧
      (get_total_users db exn).errorLogged = true ∧
      (get_active_users_last_24h db cutoff exn).ret = 0 ∧
      (get_active_users_last_24h db cutoff exn).errorLogged = true ∧
      (get_total_transaction_volume db exn).ret = 0 ∧
      (get_total_transaction_volume db exn).errorLogged = true ∧
      (get_user_stats emptyDB uid Exn.ok).ret = none ∧
      (get_total_users emptyDB Exn.ok).ret = 0 ∧
      (get_active_users_last_24h emptyDB cutoff Exn.ok).ret = 0 ∧
      (get_total_transaction_volume emptyDB Exn.ok).ret = 0 := by
  cases exn with
  | ok => exact absurd rfl h
  | acquireFail =>
    exact ⟨rfl, rfl, rfl, rfl, rfl, rfl, rfl, rfl, rfl, rfl, rfl, rfl⟩
  | bodyFail =>
    exact ⟨rfl, rfl, rfl, rfl, rfl, rfl, rfl, rfl, rfl, rfl, rfl, rfl⟩

/-- Witness for C10 on a concrete non-empty store with a body exception. -/
theorem query_ops_fail_with_empty_sentinels_witness :
    (get_user_stats dbTxW 1 Exn.bodyFail).ret = none ∧
      (get_user_stats dbTxW 1 Exn.bodyFail).errorLogged = true ∧
      (get_total_users dbTxW Exn.bodyFail).ret = 0 ∧
      (get_total_users dbTxW Exn.bodyFail).errorLogged = true ∧
      (get_active_users_last_24h dbTxW "2024-01-01" Exn.bodyFail).ret = 0 ∧
      (get_active_users_last_24h dbTxW "2024-01-01" Exn.bodyFail).errorLogged =
        true ∧
      (get_total_transaction_volume dbTxW Exn.bodyFail).ret = 0 ∧
      (get_total_transaction_volume dbTxW Exn.bodyFail).errorLogged = true ∧
      (get_user_stats emptyDB 1 Exn.ok).ret = none ∧
      (get_total_users emptyDB Exn.ok).ret = 0 ∧
      (get_active_users_last_24h emptyDB "2024-01-01" Exn.ok).ret = 0 ∧
      (get_total_transaction_volume emptyDB Exn.ok).ret = 0 :=
  query_ops_fail_with_empty_sentinels dbTxW 1 "2024-01-01" Exn.bodyFail
    (by decide)

/-! ### C5: monetary storage representation -/

/-- C5: the schema declares `transactions.amount` as a REAL column, so SQLite
stores the bound text `str(amount)` as an IEEE-754 binary64 value — a binary
float, not exact decimal-preserving text.  The decimal 123.45 (= 12345/100) is
not representable as any binary64 value, so it cannot be persisted exactly:
the stored amount for input "123.45" is some nearby dyadic rational, refuting
"monetary amounts are persisted as exact decimal-preserving text, never as
binary floats". -/
theorem transactions_amount_is_binary_float :
    transactions_amount_coltype = SqliteColType.real ∧
      ¬RepresentableAsReal ((12345 : ℚ) / 100) := by
  refine ⟨rfl, ?_⟩
  rintro ⟨m, e, -, h | h⟩
  · have h' : (12345 : ℚ) = (m : ℚ) * 2 ^ e * 100 := by
      rw [div_eq_iff (by norm_num : (100 : ℚ) ≠ 0)] at h
      linarith
    have hz : (12345 : Int) = m * 2 ^ e * 100 := by exact_mod_cast h'
    have h2 : (2 : Int) ∣ 12345 := ⟨m * 2 ^ e * 50, by rw [hz]; ring⟩
    norm_num at h2
  · have h' : (12345 : ℚ) * 2 ^ e = (m : ℚ) * 100 := by
      rw [div_mul_eq_mul_div,
        div_eq_iff (by norm_num : (100 : ℚ) ≠ 0)] at h
      linarith
    have hz : (12345 : Int) * 2 ^ e = m * 100 := by exact_mod_cast h'
    have hz' : (2469 : Int) * 2 ^ e = m * 20 := by linarith
    have h5 : (5 : Int) ∣ 2469 * 2 ^ e := ⟨m * 4, by rw [hz']; ring⟩
    have hp : Prime (5 : Int) := by norm_num
    rcases hp.dvd_mul.mp h5 with h' | h'
    · norm_num at h'
    · have h2 := hp.dvd_of_dvd_pow h'
      norm_num at h2
